import Mathlib

/-!
Verification of the GetHooks generic list store (`list.c`).

A shallow embedding of the generic list store of GetHooks: a typed container
(`struct list`) holding a singly linked, insertion-ordered sequence of items
(`struct list_item`), each carrying an integer id and an optional owned wide
string name.  The linked list (head/tail/next pointers) is embedded as a Lean
`List`; an item reference returned by `add_list_item` is embedded as the
index of the item in that list.  The external hook-directory collaborators
`get_hook_id_from_name` and `get_hook_name_from_id` are out of scope of the
repository and are passed in as function parameters.  Process-fatal paths
(`FAIL_IF`, `exit(1)` on an unknown list type) are embedded as an explicit
`fatal` result; a NULL return is `ret none`.
-/

namespace GetHooks

/-- A wide string (`WCHAR *`). -/
abbrev WStr := List Char

/-- Equality test `_wcsicmp(a, b) == 0`: the two wide strings are equal ignoring letter
case.  The CRT comparison lowercases each character before comparing. -/
def wcsieq (a b : WStr) : Bool :=
  a.map Char.toLower == b.map Char.toLower

/-- The list type tag (`enum list_type` in `list.h`).  `invalid` is the
zero value `LIST_INVALID_TYPE` left by `calloc`. -/
inductive ListType
  | invalid
  | includeDesk
  | includeHook
  | includeProg
  | excludeHook
  | excludeProg
deriving DecidableEq, Repr

/-- Embedding of `struct list_item`: an id and an optional owned name.  The `next`
pointer is represented by the position of the item in the store's `items`
list. -/
structure ListItem where
  id : Int
  name : Option WStr
deriving DecidableEq, Repr

/-- Embedding of `struct list`: the list store.  `head` and `tail` are represented by
`items`: `head` is `items.head?`, `tail` is `items.getLast?`, and the
tail's `next` is always the position one past the end, i.e. none. -/
structure ListStore where
  type : ListType
  init_time : Nat
  items : List ListItem
deriving DecidableEq, Repr

/-- Result of `create_list_store`: either a fatal `FAIL_IF` termination, or
the new contents of the caller's handle. -/
inductive CreateResult
  | fatal
  | ok (handle : Option ListStore)
deriving DecidableEq, Repr

/-- Embedding of `create_list_store`: `FAIL_IF( *out )` aborts on double initialization;
otherwise the handle is pointed at a zeroed store (`must_calloc`), so the
type tag is `LIST_INVALID_TYPE`, the timestamp is zero and head and tail
are both null. -/
def create_list_store (out : Option ListStore) : CreateResult :=
  match out with
  | some _ => CreateResult.fatal
  | none => CreateResult.ok (some { type := ListType.invalid, init_time := 0, items := [] })

/-- Result of `add_list_item`: a fatal `FAIL_IF`/`exit(1)` termination, or a
return value (`none` for a NULL item pointer, `some i` for a pointer to the
item at index `i`) together with the store after the call. -/
inductive AddResult
  | fatal
  | ret (item : Option Nat) (store : ListStore)
deriving DecidableEq, Repr

/-- Hook duplicate scan predicate: `id == item->id`. -/
def hookIdPred (id : Int) (it : ListItem) : Bool :=
  it.id == id

/-- Program/desktop name scan predicate:
`item->name && !_wcsicmp( item->name, name )`. -/
def namePred (name : WStr) (it : ListItem) : Bool :=
  match it.name with
  | some m => wcsieq m name
  | none => false

/-- Program id scan predicate: `!item->name && id == item->id`. -/
def progIdPred (id : Int) (it : ListItem) : Bool :=
  it.name == none && it.id == id

/-- The new-item path of `add_list_item`: link a freshly allocated item in
at the tail (head and tail both point to it when the list was empty). -/
def appendItem (store : ListStore) (it : ListItem) : ListStore :=
  { store with items := store.items ++ [it] }

/-- Embedding of `add_list_item( store, id, name )`, parameterized by the external hook
directory collaborators.  Mirrors the per-type dispatch of `list.c`:
hook lists resolve name to id (hard failure: NULL) or id to name (soft
failure) and dedup by id; program lists dedup case-insensitively by name,
or by id among nameless items; desktop lists require a name and a zero id
and dedup case-insensitively by name; an unset type is a fatal `FAIL_IF`. -/
def add_list_item (get_hook_id_from_name : WStr → Option Int)
    (get_hook_name_from_id : Int → Option WStr)
    (store : ListStore) (id : Int) (name : Option WStr) : AddResult :=
  if store.type = ListType.invalid then
    AddResult.fatal
  else if store.type = ListType.includeHook ∨ store.type = ListType.excludeHook then
    match name with
    | some n =>
      match get_hook_id_from_name n with
      | none =>
        AddResult.ret none store
      | some rid =>
        match store.items.findIdx? (hookIdPred rid) with
        | some i => AddResult.ret (some i) store
        | none =>
          AddResult.ret (some store.items.length)
            (appendItem store { id := rid, name := some n })
    | none =>
      let hookname := get_hook_name_from_id id
      match store.items.findIdx? (hookIdPred id) with
      | some i => AddResult.ret (some i) store
      | none =>
        AddResult.ret (some store.items.length)
          (appendItem store { id := id, name := hookname })
  else if store.type = ListType.includeProg ∨ store.type = ListType.excludeProg then
    match name with
    | some n =>
      match store.items.findIdx? (namePred n) with
      | some i => AddResult.ret (some i) store
      | none =>
        AddResult.ret (some store.items.length)
          (appendItem store { id := id, name := some n })
    | none =>
      match store.items.findIdx? (progIdPred id) with
      | some i => AddResult.ret (some i) store
      | none =>
        AddResult.ret (some store.items.length)
          (appendItem store { id := id, name := none })
  else if store.type = ListType.includeDesk then
    match name with
    | none => AddResult.fatal
    | some n =>
      if id ≠ 0 then
        AddResult.fatal
      else
        match store.items.findIdx? (namePred n) with
        | some i => AddResult.ret (some i) store
        | none =>
          AddResult.ret (some store.items.length)
            (appendItem store { id := id, name := some n })
  else
    AddResult.fatal

/-- A deallocation performed by `free_list_store`, in the order the calls
to `free` happen. -/
inductive FreeEvent
  | freeName (n : WStr)
  | freeItem (it : ListItem)
  | freeStore
deriving DecidableEq, Repr

/-- The `free` calls made for one list item: its owned name (if any), then
the item itself. -/
def freeItemEvents (it : ListItem) : List FreeEvent :=
  (match it.name with
   | some n => [FreeEvent.freeName n]
   | none => []) ++ [FreeEvent.freeItem it]

/-- Embedding of `free_list_store( in )`: if the handle is absent this is a no-op;
otherwise each item is freed from head to tail (name first, then the item),
the store itself is freed, and the handle is set to NULL.  The result is
the new handle value and the trace of `free` calls in order. -/
def free_list_store (inp : Option ListStore) : Option ListStore × List FreeEvent :=
  match inp with
  | none => (none, [])
  | some s =>
    (none, (s.items.map freeItemEvents).flatten ++ [FreeEvent.freeStore])

/-- Projection of a free trace onto the items released, in order. -/
def itemFreed : FreeEvent → Option ListItem
  | FreeEvent.freeItem it => some it
  | _ => none

/-- Projection of a free trace onto the name buffers released, in order. -/
def nameFreed : FreeEvent → Option WStr
  | FreeEvent.freeName n => some n
  | _ => none

/-- A concrete hook directory for witnesses: the hook named `k` has id 2. -/
def testDir : WStr → Option Int :=
  fun n => if n = ['k'] then some 2 else none

/-- A concrete reverse hook directory for witnesses: hook id 2 is named `k`. -/
def testNames : Int → Option WStr :=
  fun i => if i = 2 then some ['k'] else none

/-- An empty hook-include store, for witnesses. -/
def emptyHookStore : ListStore :=
  { type := ListType.includeHook, init_time := 0, items := [] }

/-- An empty program-include store, for witnesses. -/
def emptyProgStore : ListStore :=
  { type := ListType.includeProg, init_time := 0, items := [] }

/-- An empty desktop-include store, for witnesses. -/
def emptyDeskStore : ListStore :=
  { type := ListType.includeDesk, init_time := 0, items := [] }

/-- Helper: `appendItem` keeps the type tag. -/
theorem appendItem_type (s : ListStore) (it : ListItem) : (appendItem s it).type = s.type :=
  rfl

/-- Helper: every non-fatal call to `add_list_item` either returns the store
unchanged, or appends exactly one item at the tail and returns its index. -/
theorem add_list_item_ret_cases (gid : WStr → Option Int) (gname : Int → Option WStr)
    (s : ListStore) (id : Int) (name : Option WStr) (r : Option Nat) (s' : ListStore)
    (h : add_list_item gid gname s id name = AddResult.ret r s') :
    s' = s ∨ ∃ it, s' = appendItem s it ∧ r = some s.items.length := by
  unfold add_list_item at h
  repeat' split at h
  all_goals first
    | exact AddResult.noConfusion h
    | (injection h with h1 h2; subst h1; subst h2; exact Or.inl rfl)
    | (injection h with h1 h2; subst h1; subst h2; exact Or.inr ⟨_, rfl, rfl⟩)

/-- Helper: the hook branch of `add_list_item` when no name is supplied:
resolve a display name (soft failure), then dedup by id. -/
theorem add_list_item_hook_id (gid : WStr → Option Int) (gname : Int → Option WStr)
    (s : ListStore) (id : Int)
    (htype : s.type = ListType.includeHook ∨ s.type = ListType.excludeHook) :
    add_list_item gid gname s id none =
      (match s.items.findIdx? (hookIdPred id) with
       | some i => AddResult.ret (some i) s
       | none =>
         AddResult.ret (some s.items.length)
           (appendItem s { id := id, name := gname id })) := by
  rcases htype with h | h <;> simp [add_list_item, h]

/-- Helper: the hook branch of `add_list_item` when a name is supplied:
resolve the canonical id (hard failure: NULL), then dedup by that id. -/
theorem add_list_item_hook_name (gid : WStr → Option Int) (gname : Int → Option WStr)
    (s : ListStore) (id : Int) (n : WStr)
    (htype : s.type = ListType.includeHook ∨ s.type = ListType.excludeHook) :
    add_list_item gid gname s id (some n) =
      (match gid n with
       | none => AddResult.ret none s
       | some rid =>
         match s.items.findIdx? (hookIdPred rid) with
         | some i => AddResult.ret (some i) s
         | none =>
           AddResult.ret (some s.items.length)
             (appendItem s { id := rid, name := some n })) := by
  rcases htype with h | h <;> simp [add_list_item, h]

/-- Helper: the program branch of `add_list_item` when a name is supplied:
dedup case-insensitively by name. -/
theorem add_list_item_prog_name (gid : WStr → Option Int) (gname : Int → Option WStr)
    (s : ListStore) (id : Int) (n : WStr)
    (htype : s.type = ListType.includeProg ∨ s.type = ListType.excludeProg) :
    add_list_item gid gname s id (some n) =
      (match s.items.findIdx? (namePred n) with
       | some i => AddResult.ret (some i) s
       | none =>
         AddResult.ret (some s.items.length)
           (appendItem s { id := id, name := some n })) := by
  rcases htype with h | h <;> simp [add_list_item, h]

/-- Helper: the program branch of `add_list_item` when no name is supplied:
dedup by id among items that themselves have no name. -/
theorem add_list_item_prog_id (gid : WStr → Option Int) (gname : Int → Option WStr)
    (s : ListStore) (id : Int)
    (htype : s.type = ListType.includeProg ∨ s.type = ListType.excludeProg) :
    add_list_item gid gname s id none =
      (match s.items.findIdx? (progIdPred id) with
       | some i => AddResult.ret (some i) s
       | none =>
         AddResult.ret (some s.items.length)
           (appendItem s { id := id, name := none })) := by
  rcases htype with h | h <;> simp [add_list_item, h]

/-- C2: for a hook store, if a name is supplied and the external
name-to-id resolution fails, `add_list_item` returns NULL ("no item") and
the store is left unchanged; the process is not terminated. -/
theorem hook_name_resolution_failure_returns_no_item
    (gid : WStr → Option Int) (gname : Int → Option WStr)
    (s : ListStore) (id : Int) (n : WStr)
    (htype : s.type = ListType.includeHook ∨ s.type = ListType.excludeHook)
    (hfail : gid n = none) :
    add_list_item gid gname s id (some n) = AddResult.ret none s := by
  rw [add_list_item_hook_name gid gname s id n htype, hfail]

/-- Witness for C2: inserting the unknown hook name `z` into an empty hook
store returns NULL and leaves the store unchanged. -/
theorem hook_name_resolution_failure_returns_no_item_witness :
    ((emptyHookStore.type = ListType.includeHook ∨
      emptyHookStore.type = ListType.excludeHook) ∧ testDir ['z'] = none) ∧
    add_list_item testDir testNames emptyHookStore 0 (some ['z']) =
      AddResult.ret none emptyHookStore :=
  ⟨⟨Or.inl rfl, by decide⟩,
   hook_name_resolution_failure_returns_no_item testDir testNames emptyHookStore 0 ['z']
     (Or.inl rfl) (by decide)⟩

/-- C3: for a hook store with no name supplied, failure of id-to-name
resolution is non-fatal: when the id is not already in the store a new item
carrying the id and no name is appended and returned. -/
theorem hook_id_to_name_failure_still_appends
    (gid : WStr → Option Int) (gname : Int → Option WStr)
    (s : ListStore) (id : Int)
    (htype : s.type = ListType.includeHook ∨ s.type = ListType.excludeHook)
    (hfail : gname id = none)
    (hfresh : ∀ it ∈ s.items, it.id ≠ id) :
    add_list_item gid gname s id none =
      AddResult.ret (some s.items.length) (appendItem s { id := id, name := none }) := by
  have hfind : s.items.findIdx? (hookIdPred id) = none := by
    rw [List.findIdx?_eq_none_iff]
    intro it hit
    simpa [hookIdPred] using hfresh it hit
  rw [add_list_item_hook_id gid gname s id htype, hfind, hfail]

/-- Witness for C3: inserting hook id 9 (whose name resolution fails) into
an empty hook store appends a nameless item with id 9. -/
theorem hook_id_to_name_failure_still_appends_witness :
    ((emptyHookStore.type = ListType.includeHook ∨
      emptyHookStore.type = ListType.excludeHook) ∧ testNames 9 = none ∧
      (∀ it ∈ emptyHookStore.items, it.id ≠ 9)) ∧
    add_list_item testDir testNames emptyHookStore 9 none =
      AddResult.ret (some emptyHookStore.items.length)
        (appendItem emptyHookStore { id := 9, name := none }) :=
  ⟨⟨Or.inl rfl, by decide, by decide⟩,
   hook_id_to_name_failure_still_appends testDir testNames emptyHookStore 9
     (Or.inl rfl) (by decide) (by decide)⟩

/-- C4: for a program store, inserting by name deduplicates
case-insensitively: if some existing item's name equals the supplied name up
to letter case, the first such item is returned and the store is unchanged. -/
theorem prog_name_dedup_case_insensitive
    (gid : WStr → Option Int) (gname : Int → Option WStr)
    (s : ListStore) (id : Int) (n : WStr)
    (htype : s.type = ListType.includeProg ∨ s.type = ListType.excludeProg)
    (hdup : ∃ it ∈ s.items, namePred n it = true) :
    ∃ i, ∃ h : i < s.items.length,
      add_list_item gid gname s id (some n) = AddResult.ret (some i) s ∧
      namePred n s.items[i] = true := by
  obtain ⟨it0, hmem, hp⟩ := hdup
  have hsome := List.findIdx?_eq_some_of_exists (p := namePred n) ⟨it0, hmem, hp⟩
  obtain ⟨hlt, hpi, -⟩ := List.findIdx?_eq_some_iff_getElem.mp hsome
  refine ⟨_, hlt, ?_, hpi⟩
  rw [add_list_item_prog_name gid gname s id n htype, hsome]

/-- Witness for C4: a program store holding `Foo` dedups an insertion of
`fOO`, returning item 0 and appending nothing. -/
theorem prog_name_dedup_case_insensitive_witness :
    ((appendItem emptyProgStore { id := 0, name := some ['F', 'o', 'o'] }).type
        = ListType.includeProg ∨
     (appendItem emptyProgStore { id := 0, name := some ['F', 'o', 'o'] }).type
        = ListType.excludeProg) ∧
    (∃ it ∈ (appendItem emptyProgStore { id := 0, name := some ['F', 'o', 'o'] }).items,
      namePred ['f', 'O', 'O'] it = true) ∧
    (∃ i, ∃ h : i < (appendItem emptyProgStore { id := 0, name := some ['F', 'o', 'o'] }).items.length,
      add_list_item testDir testNames
          (appendItem emptyProgStore { id := 0, name := some ['F', 'o', 'o'] }) 0
          (some ['f', 'O', 'O']) =
        AddResult.ret (some i)
          (appendItem emptyProgStore { id := 0, name := some ['F', 'o', 'o'] }) ∧
      namePred ['f', 'O', 'O']
          (appendItem emptyProgStore { id := 0, name := some ['F', 'o', 'o'] }).items[i]
        = true) :=
  ⟨Or.inl rfl, ⟨{ id := 0, name := some ['F', 'o', 'o'] }, by decide, by decide⟩,
   prog_name_dedup_case_insensitive testDir testNames
     (appendItem emptyProgStore { id := 0, name := some ['F', 'o', 'o'] }) 0
     ['f', 'O', 'O'] (Or.inl rfl)
     ⟨{ id := 0, name := some ['F', 'o', 'o'] }, by decide, by decide⟩⟩

/-- C5: for a program store, inserting by id never matches an existing item
that has a name, even when ids coincide: when every nameless item has a
different id, a new nameless item with the supplied id is appended. -/
theorem prog_id_dedup_ignores_named_items
    (gid : WStr → Option Int) (gname : Int → Option WStr)
    (s : ListStore) (id : Int)
    (htype : s.type = ListType.includeProg ∨ s.type = ListType.excludeProg)
    (hnoname : ∀ it ∈ s.items, it.name = none → it.id ≠ id) :
    add_list_item gid gname s id none =
      AddResult.ret (some s.items.length) (appendItem s { id := id, name := none }) := by
  have hfind : s.items.findIdx? (progIdPred id) = none := by
    rw [List.findIdx?_eq_none_iff]
    intro it hit
    have := hnoname it hit
    cases hn : it.name with
    | none => simpa [progIdPred, hn] using this hn
    | some m => simp [progIdPred, hn]
  rw [add_list_item_prog_id gid gname s id htype, hfind]

/-- Witness for C5: a program store holding a named item with id 7 still
appends a fresh nameless item when id 7 is inserted by id. -/
theorem prog_id_dedup_ignores_named_items_witness :
    ((appendItem emptyProgStore { id := 7, name := some ['a'] }).type
        = ListType.includeProg ∨
     (appendItem emptyProgStore { id := 7, name := some ['a'] }).type
        = ListType.excludeProg) ∧
    (∀ it ∈ (appendItem emptyProgStore { id := 7, name := some ['a'] }).items,
      it.name = none → it.id ≠ 7) ∧
    add_list_item testDir testNames
        (appendItem emptyProgStore { id := 7, name := some ['a'] }) 7 none =
      AddResult.ret (some (appendItem emptyProgStore { id := 7, name := some ['a'] }).items.length)
        (appendItem (appendItem emptyProgStore { id := 7, name := some ['a'] })
          { id := 7, name := none }) :=
  ⟨Or.inl rfl, by decide,
   prog_id_dedup_ignores_named_items testDir testNames
     (appendItem emptyProgStore { id := 7, name := some ['a'] }) 7
     (Or.inl rfl) (by decide)⟩

/-- C6: for a desktop store, insertion requires a name and a zero id:
a nonzero id with a name is fatal, and a missing name is fatal. -/
theorem desk_insert_requires_name_and_zero_id
    (gid : WStr → Option Int) (gname : Int → Option WStr)
    (s : ListStore) (id : Int) (n : WStr)
    (htype : s.type = ListType.includeDesk) :
    (id ≠ 0 → add_list_item gid gname s id (some n) = AddResult.fatal) ∧
    add_list_item gid gname s id none = AddResult.fatal := by
  constructor
  · intro hid
    simp [add_list_item, htype, hid]
  · simp [add_list_item, htype]

/-- Witness for C6: on a desktop store, inserting name `a` with id 3 is
fatal, and inserting with no name is fatal. -/
theorem desk_insert_requires_name_and_zero_id_witness :
    emptyDeskStore.type = ListType.includeDesk ∧
    (((3 : Int) ≠ 0 →
        add_list_item testDir testNames emptyDeskStore 3 (some ['a']) = AddResult.fatal) ∧
      add_list_item testDir testNames emptyDeskStore 3 none = AddResult.fatal) :=
  ⟨rfl,
   desk_insert_requires_name_and_zero_id testDir testNames emptyDeskStore 3 ['a'] rfl⟩

/-- C1: for a hook store, inserting an id already in the store returns the
same item reference the first insertion returned and appends nothing;
inserting the same hook id twice into an empty store leaves exactly one
item. -/
theorem hook_insert_same_id_twice_returns_same_item
    (gid : WStr → Option Int) (gname : Int → Option WStr)
    (s : ListStore) (id : Int) (i : Nat) (s' : ListStore)
    (htype : s.type = ListType.includeHook ∨ s.type = ListType.excludeHook)
    (h1 : add_list_item gid gname s id none = AddResult.ret (some i) s') :
    add_list_item gid gname s' id none = AddResult.ret (some i) s' ∧
    (s.items = [] → s'.items.length = 1) := by
  rw [add_list_item_hook_id gid gname s id htype] at h1
  cases hfind : s.items.findIdx? (hookIdPred id) with
  | some j =>
    rw [hfind] at h1
    injection h1 with h1a h1b
    injection h1a with h1a
    subst h1a
    subst h1b
    refine ⟨?_, ?_⟩
    · rw [add_list_item_hook_id gid gname s id htype, hfind]
    · intro he
      rw [he] at hfind
      simp at hfind
  | none =>
    rw [hfind] at h1
    injection h1 with h1a h1b
    injection h1a with h1a
    subst h1a
    subst h1b
    refine ⟨?_, ?_⟩
    · rw [add_list_item_hook_id gid gname _ id (by simpa [appendItem_type] using htype)]
      simp [appendItem, List.findIdx?_append, hfind, hookIdPred]
    · intro he
      simp [appendItem, he]

/-- Witness for C1: inserting hook id 5 twice into an empty hook store
returns item 0 both times and leaves exactly one item. -/
theorem hook_insert_same_id_twice_returns_same_item_witness :
    ((emptyHookStore.type = ListType.includeHook ∨
      emptyHookStore.type = ListType.excludeHook) ∧
     add_list_item testDir testNames emptyHookStore 5 none =
       AddResult.ret (some 0)
         { type := ListType.includeHook, init_time := 0, items := [{ id := 5, name := none }] }) ∧
    (add_list_item testDir testNames
        { type := ListType.includeHook, init_time := 0, items := [{ id := 5, name := none }] }
        5 none =
      AddResult.ret (some 0)
        { type := ListType.includeHook, init_time := 0, items := [{ id := 5, name := none }] } ∧
     (emptyHookStore.items = [] →
       ({ type := ListType.includeHook, init_time := 0,
          items := [{ id := 5, name := none }] } : ListStore).items.length = 1)) :=
  ⟨⟨Or.inl rfl, by decide⟩,
   hook_insert_same_id_twice_returns_same_item testDir testNames emptyHookStore 5 0
     { type := ListType.includeHook, init_time := 0, items := [{ id := 5, name := none }] }
     (Or.inl rfl) (by decide)⟩

/-- Counterexample for C7: `create_list_store` takes no kind parameter and
always yields a store whose kind is the unset `LIST_INVALID_TYPE`, so
requesting the valid kind `LIST_INCLUDE_HOOK` does not produce a store of
that kind. -/
theorem create_list_store_does_not_set_requested_kind :
    create_list_store none =
      CreateResult.ok (some { type := ListType.invalid, init_time := 0, items := [] }) ∧
    ListType.invalid ≠ ListType.includeHook := by
  decide

/-- C7 (amended): creating a store from an uninitialized handle yields an
empty store — no head and no tail — whose kind is the unset
`LIST_INVALID_TYPE`, to be set by the caller afterward; creation on an
already-initialized handle is fatal. -/
theorem create_list_store_yields_empty_unset_kind (s : ListStore) :
    create_list_store none =
      CreateResult.ok (some { type := ListType.invalid, init_time := 0, items := [] }) ∧
    ({ type := ListType.invalid, init_time := 0, items := [] } : ListStore).items.head? = none ∧
    ({ type := ListType.invalid, init_time := 0, items := [] } : ListStore).items.getLast? = none ∧
    create_list_store (some s) = CreateResult.fatal :=
  ⟨rfl, rfl, rfl, rfl⟩

/-- Witness for C7 (amended), instantiated at a concrete initialized
handle. -/
theorem create_list_store_yields_empty_unset_kind_witness :
    create_list_store none =
      CreateResult.ok (some { type := ListType.invalid, init_time := 0, items := [] }) ∧
    ({ type := ListType.invalid, init_time := 0, items := [] } : ListStore).items.head? = none ∧
    ({ type := ListType.invalid, init_time := 0, items := [] } : ListStore).items.getLast? = none ∧
    create_list_store (some emptyHookStore) = CreateResult.fatal :=
  create_list_store_yields_empty_unset_kind emptyHookStore

/-- C8: every non-fatal insertion preserves the list invariants and
insertion order: the old item sequence is a prefix of the new (dedup scans
never reorder or mutate existing items), the type tag is unchanged, the
call either leaves the store as-is or appends exactly one item at the tail
returning its index, and head and tail are both none iff the store is
empty. -/
theorem add_list_item_preserves_order_and_invariants
    (gid : WStr → Option Int) (gname : Int → Option WStr)
    (s : ListStore) (id : Int) (name : Option WStr) (r : Option Nat) (s' : ListStore)
    (h : add_list_item gid gname s id name = AddResult.ret r s') :
    (∃ t, s'.items = s.items ++ t) ∧ s'.type = s.type ∧
    (s' = s ∨ ∃ it, s'.items = s.items ++ [it] ∧ r = some s.items.length) ∧
    ((s'.items.head? = none ∧ s'.items.getLast? = none) ↔ s'.items = []) := by
  rcases add_list_item_ret_cases gid gname s id name r s' h with rfl | ⟨it, rfl, rfl⟩
  · exact ⟨⟨[], by simp⟩, rfl, Or.inl rfl, by simp⟩
  · exact ⟨⟨[it], rfl⟩, rfl, Or.inr ⟨it, rfl, rfl⟩, by simp⟩

/-- Witness for C8: appending id 1 to an empty program store. -/
theorem add_list_item_preserves_order_and_invariants_witness :
    add_list_item testDir testNames emptyProgStore 1 none =
      AddResult.ret (some 0) (appendItem emptyProgStore { id := 1, name := none }) ∧
    ((∃ t, (appendItem emptyProgStore { id := 1, name := none }).items =
        emptyProgStore.items ++ t) ∧
     (appendItem emptyProgStore { id := 1, name := none }).type = emptyProgStore.type ∧
     (appendItem emptyProgStore { id := 1, name := none } = emptyProgStore ∨
      ∃ it, (appendItem emptyProgStore { id := 1, name := none }).items =
          emptyProgStore.items ++ [it] ∧
        (some 0 : Option Nat) = some emptyProgStore.items.length) ∧
     (((appendItem emptyProgStore { id := 1, name := none }).items.head? = none ∧
       (appendItem emptyProgStore { id := 1, name := none }).items.getLast? = none) ↔
      (appendItem emptyProgStore { id := 1, name := none }).items = [])) :=
  ⟨by decide,
   add_list_item_preserves_order_and_invariants testDir testNames emptyProgStore 1 none
     (some 0) (appendItem emptyProgStore { id := 1, name := none }) (by decide)⟩

/-- Helper: the free trace of a list of items releases exactly those items,
in forward order. -/
theorem filterMap_itemFreed_freeItemEvents (l : List ListItem) :
    ((l.map freeItemEvents).flatten).filterMap itemFreed = l := by
  induction l with
  | nil => rfl
  | cons it l ih =>
    cases hn : it.name <;>
      simp [freeItemEvents, hn, List.filterMap_append, itemFreed, ih]

/-- Helper: the free trace of a list of items releases exactly their owned
names, in forward order. -/
theorem filterMap_nameFreed_freeItemEvents (l : List ListItem) :
    ((l.map freeItemEvents).flatten).filterMap nameFreed = l.filterMap ListItem.name := by
  induction l with
  | nil => rfl
  | cons it l ih =>
    cases hn : it.name <;>
      simp [freeItemEvents, hn, List.filterMap_append, nameFreed, ih,
        List.filterMap_cons]

/-- C9: teardown releases every item and every item's owned name from head
to tail in forward order, releases the store last, and sets the handle to
none; destroying the now-none handle (or a never-initialized handle) again
is a no-op that frees nothing. -/
theorem free_list_store_releases_all_then_idempotent (s : ListStore) :
    (free_list_store (some s)).1 = none ∧
    (free_list_store (some s)).2.filterMap itemFreed = s.items ∧
    (free_list_store (some s)).2.filterMap nameFreed = s.items.filterMap ListItem.name ∧
    (free_list_store (some s)).2.getLast? = some FreeEvent.freeStore ∧
    free_list_store ((free_list_store (some s)).1) = (none, []) ∧
    free_list_store none = (none, []) := by
  refine ⟨rfl, ?_, ?_, ?_, rfl, rfl⟩
  · show ((s.items.map freeItemEvents).flatten ++ [FreeEvent.freeStore]).filterMap itemFreed
        = s.items
    rw [List.filterMap_append, filterMap_itemFreed_freeItemEvents]
    simp [itemFreed]
  · show ((s.items.map freeItemEvents).flatten ++ [FreeEvent.freeStore]).filterMap nameFreed
        = s.items.filterMap ListItem.name
    rw [List.filterMap_append, filterMap_nameFreed_freeItemEvents]
    simp [nameFreed]
  · simp [free_list_store, List.getLast?_concat]

/-- Witness for C9: tearing down a one-item store with a named item. -/
theorem free_list_store_releases_all_then_idempotent_witness :
    (free_list_store (some (appendItem emptyProgStore { id := 4, name := some ['a'] }))).1
        = none ∧
    (free_list_store (some (appendItem emptyProgStore { id := 4, name := some ['a'] }))).2.filterMap
        itemFreed = (appendItem emptyProgStore { id := 4, name := some ['a'] }).items ∧
    (free_list_store (some (appendItem emptyProgStore { id := 4, name := some ['a'] }))).2.filterMap
        nameFreed =
      (appendItem emptyProgStore { id := 4, name := some ['a'] }).items.filterMap ListItem.name ∧
    (free_list_store (some (appendItem emptyProgStore { id := 4, name := some ['a'] }))).2.getLast?
        = some FreeEvent.freeStore ∧
    free_list_store
        ((free_list_store (some (appendItem emptyProgStore { id := 4, name := some ['a'] }))).1)
        = (none, []) ∧
    free_list_store none = (none, []) :=
  free_list_store_releases_all_then_idempotent
    (appendItem emptyProgStore { id := 4, name := some ['a'] })

/-- C10: for a program store, supplying both a name and a nonzero id in one
call does not fail: dedup uses only the name, the new item stores both an
owned copy of the name and the supplied id, and later id-based duplicate
scans never return that named item. -/
theorem prog_insert_name_and_id_stores_both
    (gid : WStr → Option Int) (gname : Int → Option WStr)
    (s : ListStore) (id : Int) (n : WStr)
    (htype : s.type = ListType.includeProg ∨ s.type = ListType.excludeProg)
    (_hid : id ≠ 0)
    (hfresh : ∀ it ∈ s.items, namePred n it = false) :
    add_list_item gid gname s id (some n) =
      AddResult.ret (some s.items.length) (appendItem s { id := id, name := some n }) ∧
    (∀ id2 j s'',
      add_list_item gid gname (appendItem s { id := id, name := some n }) id2 none =
        AddResult.ret (some j) s'' → j ≠ s.items.length) := by
  have hfind : s.items.findIdx? (namePred n) = none :=
    List.findIdx?_eq_none_iff.mpr hfresh
  constructor
  · rw [add_list_item_prog_name gid gname s id n htype, hfind]
  · intro id2 j s'' h2
    have htype2 : (appendItem s { id := id, name := some n }).type = ListType.includeProg ∨
        (appendItem s { id := id, name := some n }).type = ListType.excludeProg := by
      simpa [appendItem_type] using htype
    rw [add_list_item_prog_id gid gname _ id2 htype2] at h2
    cases hf : (appendItem s { id := id, name := some n }).items.findIdx? (progIdPred id2) with
    | none =>
      rw [hf] at h2
      injection h2 with h2a h2b
      injection h2a with h2a
      subst h2a
      simp [appendItem]
    | some k =>
      rw [hf] at h2
      injection h2 with h2a h2b
      injection h2a with h2a
      subst h2a
      obtain ⟨hlt, hpk, -⟩ := List.findIdx?_eq_some_iff_getElem.mp hf
      intro hk
      subst hk
      simp [appendItem, List.getElem_concat_length, progIdPred] at hpk

/-- Witness for C10: inserting name `a` together with id 3 into an empty
program store stores both, and a later id-based insert never matches the
named item. -/
theorem prog_insert_name_and_id_stores_both_witness :
    ((emptyProgStore.type = ListType.includeProg ∨
      emptyProgStore.type = ListType.excludeProg) ∧ (3 : Int) ≠ 0 ∧
     (∀ it ∈ emptyProgStore.items, namePred ['a'] it = false)) ∧
    (add_list_item testDir testNames emptyProgStore 3 (some ['a']) =
      AddResult.ret (some emptyProgStore.items.length)
        (appendItem emptyProgStore { id := 3, name := some ['a'] }) ∧
     (∀ id2 j s'',
       add_list_item testDir testNames
           (appendItem emptyProgStore { id := 3, name := some ['a'] }) id2 none =
         AddResult.ret (some j) s'' → j ≠ emptyProgStore.items.length)) :=
  ⟨⟨Or.inl rfl, by decide, by decide⟩,
   prog_insert_name_and_id_stores_both testDir testNames emptyProgStore 3 ['a']
     (Or.inl rfl) (by decide) (by decide)⟩

end GetHooks
